import Mathlib

/-!
# Verification of the zkdrop-bot discovery/dedup/scoring/distribution pipeline

Shallow embedding of the core pipeline of the zkdrop-bot repository:

* `utils/scam_filter.py` — keyword/pattern scam check (`basic_scam_check`);
* `utils/scam_analyzer.py` — external-signal scam scorer (`check_safe_browsing`,
  `check_domain_age`, `check_contract`, `check_social_sentiment`,
  `analyze_airdrop` with its sqlite cache);
* `utils/scrapers/zealy.py` — duplicate/recency guard (`is_duplicate`,
  `was_sent_recently`), scoring glue (`run_scam_checks`, `compute_rank_score`),
  messaging (`send_telegram_message`, `broadcast_to_all_users`) and the scrape
  cycle (`run_scrape_once`);
* `utils/scheduler.py` — `process_unposted_airdrops` loop body;
* `database/db.py` — `get_all_user_ids`.

Network calls, the sqlite/Mongo connections and regular-expression engines are
modelled by explicit outcome parameters (`Except Unit _` for calls that may
raise); Python dynamic typing at the few places where it matters (dict vs int
vs bool results) is modelled by small inductive value types.  Machine floats
are modelled by `ℚ` and `math.log1p` by an abstract function parameter.
-/

deriving instance DecidableEq for Except

namespace ZkDrop

/-! ## Generic helpers -/

/-- Whether `pat` occurs as a contiguous substring of `txt` (the Python test `pat in txt`). -/
def containsSub (pat : List Char) : List Char → Bool
  | [] => pat.isEmpty
  | c :: rest => pat.isPrefixOf (c :: rest) || containsSub pat rest

/-- The Python `str.lower()` applied to the character list of a string. -/
def lowerChars (s : String) : List Char := s.data.map Char.toLower

/-- Python truthiness of an optional string (`if contract:`): `None` and the
empty string are falsy. -/
def pyTruthy : Option String → Bool
  | none => false
  | some s => !s.isEmpty

/-! ## utils/scam_filter.py -/

/-- The list `SCAM_KEYWORDS` from `utils/scam_filter.py`. -/
def SCAM_KEYWORDS : List String :=
  ["free money", "double your crypto", "click here", "urgent", "giveaway",
   "send eth", "private key", "seed phrase", "airdrop scam", "verify wallet",
   "connect wallet to claim", "uniswap clone", "1inch fake", "magic airdrop"]

/-- Model of `basic_scam_check(content)` from `utils/scam_filter.py`: the lowered text
is scanned for any scam keyword, then for the `SCAM_DOMAINS` regular
expressions.  The regex engine is not embedded; whether one of the two
`SCAM_DOMAINS` patterns matches is supplied as the Boolean `domainRegexHit`.
The Python function returns a plain `bool`. -/
def basic_scam_check (domainRegexHit : Bool) (content : String) : Bool :=
  SCAM_KEYWORDS.any (fun k => containsSub k.data (lowerChars content)) || domainRegexHit

/-! ## utils/scam_analyzer.py -/

/-- The literal alternatives of the fallback `scam_patterns` regex in
`check_safe_browsing` (the pattern is a plain alternation of literals). -/
def scamUrlPatterns : List String :=
  ["metaamask", "uniswop", "claimnow", "walletconnect", "drainwallet"]

/-- Model of `check_safe_browsing(url)`: the Safe Browsing API call either succeeds
(`.ok b`, `b` = response listed threat matches) giving 30 or 0, or raises
(`.error`), in which case the local regex fallback gives 20 on a pattern hit
in the lowered url and 0 otherwise. -/
def check_safe_browsing (url : String) (api : Except Unit Bool) : ℤ :=
  match api with
  | .ok b => if b then 30 else 0
  | .error _ =>
      if scamUrlPatterns.any (fun p => containsSub p.data (lowerChars url)) then 20 else 0

/-- Model of `check_domain_age(url)`: `.ok (some daysOld)` = WHOIS succeeded with a
creation date that many days old; `.ok none` = WHOIS succeeded but reported no
creation date (returns 10); `.error` = any exception (returns 10). -/
def check_domain_age (whois : Except Unit (Option ℤ)) : ℤ :=
  match whois with
  | .ok (some daysOld) => if 30 ≤ daysOld then 0 else 20
  | .ok none => 10
  | .error _ => 10

/-- Outcomes of the two Etherscan requests in `check_contract`. -/
structure ContractEnv where
  /-- Outcome `.ok b`: source-code lookup succeeded, `b` = `SourceCode` is empty
  (adds 15); `.error`: raised before any penalty beyond 0 was added. -/
  source : Except Unit Bool
  /-- Outcome `.ok (some d)`: tx-list lookup succeeded, first transaction is `d` days
  old (adds 10 when `d < 30`); `.ok none`: empty tx list; `.error`: the
  tx-list part raised after the source part finished. -/
  txAge : Except Unit (Option ℤ)
  deriving DecidableEq

/-- Model of `check_contract(address)`: `score` starts at 0; +15 for missing source
code, +10 for a contract younger than 30 days; the single `except` block adds
10 to whatever was accumulated when a request raises. -/
def check_contract (env : ContractEnv) : ℤ :=
  match env.source with
  | .error _ => 10
  | .ok noSource =>
      let s : ℤ := if noSource then 15 else 0
      match env.txAge with
      | .error _ => s + 10
      | .ok none => s
      | .ok (some d) => if d < 30 then s + 10 else s

/-- Model of `check_social_sentiment(token_symbol)`: `.ok none` = LunarCrush returned
no data (10); `.ok (some altRank)` = the `alt_rank` of the asset (10 if > 80, −5 if
< 30, else 0); `.error` = any exception (5). -/
def check_social_sentiment (lunar : Except Unit (Option ℤ)) : ℤ :=
  match lunar with
  | .error _ => 5
  | .ok none => 10
  | .ok (some altRank) => if 80 < altRank then 10 else if altRank < 30 then -5 else 0

/-- One row of the sqlite `scam_checks` table. -/
structure CacheRow where
  link : String
  contract : Option String
  score : ℤ
  deriving DecidableEq

/-- The sqlite lookup `SELECT score FROM scam_checks WHERE link=? AND
contract=?`: in SQL, `contract = NULL` is never true, so a `None` contract
parameter (or a `NULL` stored value) never matches any row. -/
def sqlRowMatches (link : String) (contract : Option String) (row : CacheRow) : Bool :=
  row.link == link &&
    match contract, row.contract with
    | some c, some rc => c == rc
    | _, _ => false

/-- Outcomes of the external world for one `analyze_airdrop` call. -/
structure AnalyzeEnv where
  safeBrowsing : Except Unit Bool
  domainAge : Except Unit (Option ℤ)
  contract : ContractEnv
  sentiment : Except Unit (Option ℤ)
  /-- An exception raised inside the `try` body of the function (the sqlite read,
  the sqlite write/commit, or — hypothetically — an escaping check); the
  `except` clause then returns 99.  Modelled as raising on the cache read,
  before any external query runs. -/
  dbRaise : Bool
  deriving DecidableEq

/-- Result of one `analyze_airdrop` call: the returned integer score, the
cache table afterwards, and how many external signal sources were queried
(0 on a cache hit or on the exception path). -/
structure AnalyzeResult where
  score : ℤ
  cache : List CacheRow
  externalQueries : ℕ
  deriving DecidableEq

/-- Model of `analyze_airdrop(link, contract, token_symbol)` from
`utils/scam_analyzer.py`: look the `(link, contract)` pair up in the
`scam_checks` cache; on a hit return the cached score, otherwise sum the four
checks (contract and sentiment only when their argument is truthy), insert a
new row, and return the sum.  The surrounding `try`/`except` turns any raise
into the fixed return value 99.  The function always returns an integer. -/
def analyze_airdrop (cache : List CacheRow) (link : String)
    (contract token_symbol : Option String) (env : AnalyzeEnv) : AnalyzeResult :=
  if env.dbRaise then ⟨99, cache, 0⟩
  else
    match cache.find? (sqlRowMatches link contract) with
    | some row => ⟨row.score, cache, 0⟩
    | none =>
        let s : ℤ :=
          check_safe_browsing link env.safeBrowsing
          + check_domain_age env.domainAge
          + (if pyTruthy contract then check_contract env.contract else 0)
          + (if pyTruthy token_symbol then check_social_sentiment env.sentiment else 0)
        ⟨s, cache ++ [⟨link, contract, s⟩],
          2 + (if pyTruthy contract then 1 else 0) + (if pyTruthy token_symbol then 1 else 0)⟩

theorem check_safe_browsing_bounds (url : String) (api : Except Unit Bool) :
    0 ≤ check_safe_browsing url api ∧ check_safe_browsing url api ≤ 30 := by
  cases api with
  | error u =>
      simp only [check_safe_browsing]
      split_ifs <;> omega
  | ok b => cases b <;> simp [check_safe_browsing]

theorem check_domain_age_bounds (whois : Except Unit (Option ℤ)) :
    0 ≤ check_domain_age whois ∧ check_domain_age whois ≤ 20 := by
  rcases whois with u | o
  · simp only [check_domain_age]; omega
  · rcases o with _ | d <;> simp only [check_domain_age] <;>
      first
        | (split_ifs <;> omega)
        | omega

theorem check_contract_bounds (env : ContractEnv) :
    0 ≤ check_contract env ∧ check_contract env ≤ 25 := by
  obtain ⟨src, tx⟩ := env
  rcases src with u | ns
  · simp only [check_contract]; omega
  · rcases tx with u | o
    · simp only [check_contract]
      split_ifs <;> omega
    · rcases o with _ | d <;> simp only [check_contract] <;> split_ifs <;> omega

theorem check_social_sentiment_bounds (lunar : Except Unit (Option ℤ)) :
    -5 ≤ check_social_sentiment lunar ∧ check_social_sentiment lunar ≤ 10 := by
  rcases lunar with u | o
  · simp only [check_social_sentiment]; omega
  · rcases o with _ | altRank <;> simp only [check_social_sentiment] <;>
      first
        | (split_ifs <;> omega)
        | omega

/-- C4 (amended). The total score `analyze_airdrop` computes on a fresh cache
is bounded, but NOT inside `[0, 100]`: it lies in `[-5, 99]`.  There is no
clamping in the code; the lower end `-5` is reachable because
`check_social_sentiment` returns `-5` for a well-hyped token
(`alt_rank < 30`), and the upper end is the error value `99` (a fresh,
error-free computation is at most `30 + 20 + 25 + 10 = 85`). -/
theorem analyze_airdrop_score_range (link : String)
    (contract token_symbol : Option String) (env : AnalyzeEnv) :
    -5 ≤ (analyze_airdrop [] link contract token_symbol env).score ∧
      (analyze_airdrop [] link contract token_symbol env).score ≤ 99 := by
  obtain ⟨sb, da, con, sen, dbr⟩ := env
  have hsb := check_safe_browsing_bounds link sb
  have hda := check_domain_age_bounds da
  have hc := check_contract_bounds con
  have hs := check_social_sentiment_bounds sen
  rcases dbr
  · simp only [analyze_airdrop, List.find?_nil, Bool.false_eq_true, if_false]
    split_ifs <;> omega
  · simp only [analyze_airdrop, if_true]
    omega

/-- C4 (counterexample to the claim as stated). A concrete run in which Safe
Browsing and WHOIS find nothing, no contract is supplied, and LunarCrush
reports `alt_rank = 10` for the token: the returned trust/scam score is `-5`,
i.e. negative, so the score does not lie in `[0, 100]`. -/
theorem analyze_airdrop_score_negative_cex :
    (analyze_airdrop [] "https://drop.example" none (some "ZK")
        ⟨.ok false, .ok (some 40), ⟨.ok false, .ok none⟩, .ok (some 10), false⟩).score
      = -5 ∧
    ¬ (0 ≤ (analyze_airdrop [] "https://drop.example" none (some "ZK")
        ⟨.ok false, .ok (some 40), ⟨.ok false, .ok none⟩, .ok (some 10), false⟩).score) := by
  decide

/-- C10. `analyze_airdrop` is total over exceptions: the embedding returns a
plain integer for every input (there is no error result in its type, matching
the catch-all `try`/`except`), and whenever a step of the body raises
(the sqlite cache read or write; the external checks catch their own
exceptions internally and cannot raise), the function returns the fixed
high-risk score `99`. -/
theorem analyze_airdrop_raise_returns_99 (cache : List CacheRow) (link : String)
    (contract token_symbol : Option String) (env : AnalyzeEnv)
    (h : env.dbRaise = true) :
    (analyze_airdrop cache link contract token_symbol env).score = 99 := by
  unfold analyze_airdrop
  rw [h]
  simp

/-- C10 witness: a concrete call whose sqlite step raises returns `99`. -/
theorem analyze_airdrop_raise_returns_99_witness :
    (⟨.ok false, .ok none, ⟨.ok false, .ok none⟩, .ok none, true⟩ : AnalyzeEnv).dbRaise = true
      ∧ (analyze_airdrop [] "https://drop.example" none none
          ⟨.ok false, .ok none, ⟨.ok false, .ok none⟩, .ok none, true⟩).score = 99 :=
  ⟨rfl, analyze_airdrop_raise_returns_99 [] "https://drop.example" none none
    ⟨.ok false, .ok none, ⟨.ok false, .ok none⟩, .ok none, true⟩ rfl⟩

theorem find?_append_or {α : Type} (p : α → Bool) (l₁ l₂ : List α) :
    (l₁ ++ l₂).find? p = (l₁.find? p).or (l₂.find? p) :=
  List.find?_append

/-- C8 (amended). Caching works whenever the `contract` argument is non-null:
if `analyze_airdrop` is called twice with the same `(link, contract)` pair
(contract not `None`) and the sqlite step of neither call raises, the second call
returns the same score as the first while performing zero external queries
(a pure cache hit). -/
theorem analyze_airdrop_second_call_cache_hit (cache : List CacheRow) (link c : String)
    (token_symbol : Option String) (env1 env2 : AnalyzeEnv)
    (h1 : env1.dbRaise = false) (h2 : env2.dbRaise = false) :
    (analyze_airdrop (analyze_airdrop cache link (some c) token_symbol env1).cache
        link (some c) token_symbol env2).score
      = (analyze_airdrop cache link (some c) token_symbol env1).score ∧
    (analyze_airdrop (analyze_airdrop cache link (some c) token_symbol env1).cache
        link (some c) token_symbol env2).externalQueries = 0 := by
  unfold analyze_airdrop
  rw [h1, h2]
  simp only [if_false, Bool.false_eq_true]
  cases hfind : cache.find? (sqlRowMatches link (some c)) with
  | some row => simp [hfind]
  | none =>
      simp only [hfind]
      rw [find?_append_or, hfind]
      simp [sqlRowMatches]

/-- C8 witness for the amended theorem: a concrete pair of calls with
`contract = "0xabc"`; the second call is a cache hit even though its
environment would answer the external checks differently. -/
theorem analyze_airdrop_second_call_cache_hit_witness :
    ((⟨.ok false, .ok (some 40), ⟨.ok false, .ok none⟩, .ok none, false⟩ : AnalyzeEnv).dbRaise
        = false
      ∧ (⟨.error (), .error (), ⟨.error (), .error ()⟩, .error (), false⟩
          : AnalyzeEnv).dbRaise = false)
    ∧ ((analyze_airdrop (analyze_airdrop [] "https://drop.example" (some "0xabc") none
            ⟨.ok false, .ok (some 40), ⟨.ok false, .ok none⟩, .ok none, false⟩).cache
          "https://drop.example" (some "0xabc") none
          ⟨.error (), .error (), ⟨.error (), .error ()⟩, .error (), false⟩).score
        = (analyze_airdrop [] "https://drop.example" (some "0xabc") none
            ⟨.ok false, .ok (some 40), ⟨.ok false, .ok none⟩, .ok none, false⟩).score
      ∧ (analyze_airdrop (analyze_airdrop [] "https://drop.example" (some "0xabc") none
            ⟨.ok false, .ok (some 40), ⟨.ok false, .ok none⟩, .ok none, false⟩).cache
          "https://drop.example" (some "0xabc") none
          ⟨.error (), .error (), ⟨.error (), .error ()⟩, .error (), false⟩).externalQueries
        = 0) :=
  ⟨⟨rfl, rfl⟩,
    analyze_airdrop_second_call_cache_hit [] "https://drop.example" "0xabc" none
      ⟨.ok false, .ok (some 40), ⟨.ok false, .ok none⟩, .ok none, false⟩
      ⟨.error (), .error (), ⟨.error (), .error ()⟩, .error (), false⟩ rfl rfl⟩

/-- C8 (counterexample to the claim as stated). With `contract = None`, the
sqlite lookup `WHERE link=? AND contract=?` compares against `NULL` and never
matches, so a second call with the identical `(link, contract)` pair is NOT a
cache hit: it queries the external sources again (2 queries) and appends a
second identical row to the cache. -/
theorem analyze_airdrop_null_contract_cache_miss_cex :
    (analyze_airdrop (analyze_airdrop [] "https://drop.example" none none
          ⟨.ok false, .ok (some 40), ⟨.ok false, .ok none⟩, .ok none, false⟩).cache
        "https://drop.example" none none
        ⟨.ok false, .ok (some 40), ⟨.ok false, .ok none⟩, .ok none, false⟩).externalQueries
      = 2 ∧
    (analyze_airdrop (analyze_airdrop [] "https://drop.example" none none
          ⟨.ok false, .ok (some 40), ⟨.ok false, .ok none⟩, .ok none, false⟩).cache
        "https://drop.example" none none
        ⟨.ok false, .ok (some 40), ⟨.ok false, .ok none⟩, .ok none, false⟩).cache.length
      = 2 := by
  decide

/-! ## utils/scrapers/zealy.py — duplicate/recency guard -/

/-- Model of `is_duplicate(link)` from `utils/scrapers/zealy.py`, fed with the outcome
of `airdrops_col.find_one({"link": link})`: `.ok r` = the query returned `r`
(`some` = a document exists), `.error` = the query raised.  On an exception
the function logs and returns `True` ("Fail safe"). -/
def is_duplicate (findResult : Except Unit (Option Unit)) : Bool :=
  match findResult with
  | .ok r => r.isSome
  | .error _ => true

/-- Model of `was_sent_recently(link, hours=24)` from `utils/scrapers/zealy.py`, fed
with the outcome of the `sent_log_col.find_one` query restricted to
`sent_at >= cutoff`.  On an exception it returns `True` ("Fail safe"). -/
def was_sent_recently (findResult : Except Unit (Option Unit)) : Bool :=
  match findResult with
  | .ok r => r.isSome
  | .error _ => true

/-- C2. Fail-closed guard: when the persistence-layer query raises, both
`is_duplicate` and `was_sent_recently` answer `true` ("already seen" /
"already sent"), so the candidate is skipped for that cycle; the answer on an
error is never `false`. -/
theorem guard_fails_closed (e : Unit) :
    is_duplicate (.error e) = true ∧ was_sent_recently (.error e) = true :=
  ⟨rfl, rfl⟩

/-! ## utils/scrapers/zealy.py — run_scam_checks

`run_scam_checks(title, description, link)` calls
`utils.scam_analyzer.analyze_airdrop` (which returns a plain **int**, proven
total above) and `utils.scam_filter.basic_scam_check` (which returns a plain
**bool**), then reads both results with dict methods:

```
scam_score = analyzer_res.get("score", None)
verdict = analyzer_res.get("verdict", None) or ("scam" if basic_res.get("is_scam") else "clean")
```

These two lines sit outside any `try` block.  `analyzer_res` is
`analyze_airdrop(...) or {}`, i.e. the int itself when it is non-zero and `{}`
when it is `0`; `basic_res` is `basic_scam_check(...) or {}`, i.e. the Python
`True` when the check fires and `{}` otherwise.  Calling `.get` on an `int`
or on `True` raises `AttributeError`, which escapes `run_scam_checks`. -/

/-- Result of a `run_scam_checks` call: either a summary dict (its
`scam_score` and `verdict` entries) or an escaping `AttributeError`. -/
inductive RunScamOutcome
  | ok (scam_score : Option ℤ) (verdict : String)
  | attrError
  deriving DecidableEq

/-- Model of `run_scam_checks`, as a function of the two call outcomes: `analyzer` is
the outcome of the `analyze_airdrop` call (`.ok n` = returned the int `n`,
`.error` = raised, handled by substituting `{"score": None, "verdict":
"error", ...}`); `basic` is the outcome of the `basic_scam_check` call
(`.ok b` = returned the bool `b`, `.error` = raised, handled by substituting
`{"is_scam": False, ...}`). -/
def run_scam_checks (analyzer : Except Unit ℤ) (basic : Except Unit Bool) : RunScamOutcome :=
  match analyzer with
  | .error _ => .ok none "error"
  | .ok n =>
      if n = 0 then
        match basic with
        | .ok true => .attrError
        | .ok false => .ok none "clean"
        | .error _ => .ok none "clean"
      else .attrError

/-- C5 (the code at the claimed scenario). A candidate whose combined text
contains the scam keyword "free money" makes `basic_scam_check` return the
Python bool `True`; composed into `run_scam_checks`, the resulting
`basic_res.get("is_scam")` (or, for a non-zero analyzer score, the earlier
`analyzer_res.get("score", None)`) raises `AttributeError` instead of
producing the verdict `"scam"`: no verdict is ever composed for such a
candidate.  (The escaping exception does exclude the candidate from the
broadcast — see the pipeline model — but only because the whole per-candidate
iteration is abandoned before `save_airdrop_record`.) -/
theorem run_scam_checks_keyword_hit_raises :
    basic_scam_check false "win free money now https://drop.example" = true
    ∧ run_scam_checks (.ok 0) (.ok true) = .attrError
    ∧ run_scam_checks (.ok 99) (.ok true) = .attrError
    ∧ run_scam_checks (.ok 99) (.ok false) = .attrError := by
  decide

/-! ## utils/scrapers/zealy.py — compute_rank_score -/

/-- Rounding to two decimal places (the Python `round(rank, 2)`; the model uses
exact rationals and round-half-up, abstracting binary floats and their
round-half-even tie rule, which the spec does not pin down). -/
def round2 (q : ℚ) : ℚ := (round (q * 100) : ℤ) / 100

/-- Model of `compute_rank_score(scam_score, twitter_score, xp)` from
`utils/scrapers/zealy.py`.  `math.log1p` is abstracted as the function
parameter `log1p` (`log1p x` stands for `log(1 + x)`); `none` models a `None`
score (defaulted to `50.0`) and an `xp` that `float()` cannot parse
(defaulted to `0.0`). -/
def compute_rank_score (log1p : ℚ → ℚ) (scam_score twitter_score : Option ℚ)
    (xp : Option ℚ) : ℚ :=
  let s : ℚ := match scam_score with | none => 50 | some v => v
  let t : ℚ := match twitter_score with | none => 50 | some v => v
  let x : ℚ := match xp with | none => 0 | some v => v
  round2 ((100 - s) * (45 / 100) + t * (35 / 100) + log1p x * 2)

/-- Modelled from the spec: `compute_rank(trust_score, social_buzz_score,
reward_magnitude)` — "rank = (100 - trust_score) * 0.45 + social_buzz_score *
0.35 + log(1 + reward_magnitude) * 2.0, rounded to 2 decimal places", with a
missing `trust_score` or `social_buzz_score` defaulting to the neutral
midpoint 50 and a missing `reward_magnitude` defaulting to 0. -/
def compute_rank_spec (log1p : ℚ → ℚ) (trust_score social_buzz_score : Option ℚ)
    (reward_magnitude : Option ℚ) : ℚ :=
  round2 ((100 - trust_score.getD 50) * (45 / 100)
    + social_buzz_score.getD 50 * (35 / 100) + log1p (reward_magnitude.getD 0) * 2)

/-- C3. `compute_rank_score` computes exactly the formula of the spec
`(100 - trust_score) * 0.45 + social_buzz_score * 0.35 +
log(1 + reward_magnitude) * 2.0` rounded to 2 decimals, with defaults 50 / 50
/ 0 for missing inputs, for every choice of the logarithm function and every
input; in particular the call `(trust_score=80, social_buzz_score=60,
reward_magnitude=500)` reproduces the value of the formula. -/
theorem compute_rank_score_matches_spec (log1p : ℚ → ℚ)
    (scam_score twitter_score xp : Option ℚ) :
    compute_rank_score log1p scam_score twitter_score xp
      = compute_rank_spec log1p scam_score twitter_score xp
    ∧ compute_rank_score log1p (some 80) (some 60) (some 500)
      = round2 ((100 - 80) * (45 / 100) + 60 * (35 / 100) + log1p 500 * 2) := by
  constructor
  · cases scam_score <;> cases twitter_score <;> cases xp <;> rfl
  · rfl

/-! ## utils/scrapers/zealy.py and database/db.py — recipients and fan-out -/

/-- One document of the `users` collection: `chat_id` is read by
`broadcast_to_all_users` (may be absent), `user_id` by `get_all_user_ids`,
`banned` is the moderation flag set by `ban_user`. -/
structure TgUser where
  chat_id : Option ℤ
  user_id : ℤ
  banned : Bool
  deriving DecidableEq

/-- Model of `send_telegram_message(chat_id, text)` from `utils/scrapers/zealy.py`:
returns `False` when `BOT_TOKEN` is unset; otherwise `True` when the HTTP
post succeeds and `False` on any exception (HTTP error status, timeout, …) —
it never propagates an exception. -/
def send_telegram_message (botToken : Option String) (post : Except Unit Unit) : Bool :=
  match botToken with
  | none => false
  | some _ =>
      match post with
      | .ok _ => true
      | .error _ => false

/-- The body of the `for u in users:` loop of `broadcast_to_all_users`: skip
a falsy `chat_id` (absent or `0`), skip the admin when `skip_admin` is set,
otherwise attempt the send and increment `sent` on success. -/
def broadcastStep (send : ℤ → Bool) (adminId : Option ℤ) (skipAdmin : Bool)
    (sent : ℕ) (u : TgUser) : ℕ :=
  match u.chat_id with
  | none => sent
  | some cid =>
      if cid = 0 then sent
      else if skipAdmin && adminId == some cid then sent
      else if send cid then sent + 1 else sent

/-- Model of `broadcast_to_all_users(text, skip_admin)` from `utils/scrapers/zealy.py`:
iterates every document of `users_col.find({})` with `broadcastStep`, sending
to each usable chat id (`send cid` abstracts the awaited
`send_telegram_message(cid, text)` result), and returns the number of
successful sends.  A failed send only skips the `sent` increment; the loop
continues and nothing is raised.  (The surrounding `try`/`except` that
returns `0` when the *query* `users_col.find({})` itself raises is outside
this model, whose input is the fetched list.) -/
def broadcast_to_all_users (send : ℤ → Bool) (adminId : Option ℤ) (skipAdmin : Bool)
    (users : List TgUser) : ℕ :=
  users.foldl (broadcastStep send adminId skipAdmin) 0

/-- The chat id the loop body attempts to send to for one user document, if
any: the same skip conditions as `broadcastStep`. -/
def attemptOf (adminId : Option ℤ) (skipAdmin : Bool) (u : TgUser) : Option ℤ :=
  match u.chat_id with
  | none => none
  | some cid =>
      if cid = 0 then none
      else if skipAdmin && adminId == some cid then none
      else some cid

/-- The chat ids `broadcast_to_all_users` actually attempts to send to, in
order. -/
def broadcast_attempts (adminId : Option ℤ) (skipAdmin : Bool)
    (users : List TgUser) : List ℤ :=
  users.filterMap (attemptOf adminId skipAdmin)

theorem broadcastStep_eq_attemptOf (send : ℤ → Bool) (adminId : Option ℤ)
    (skipAdmin : Bool) (sent : ℕ) (u : TgUser) :
    broadcastStep send adminId skipAdmin sent u
      = match attemptOf adminId skipAdmin u with
        | none => sent
        | some cid => if send cid then sent + 1 else sent := by
  unfold broadcastStep attemptOf
  rcases u.chat_id with _ | cid
  · rfl
  · by_cases h0 : cid = 0
    · simp [h0]
    · by_cases hadm : (skipAdmin && adminId == some cid) = true
      · simp [h0, hadm]
      · simp [h0, hadm]

/-- Model of `get_all_user_ids()` from `database/db.py`: projects `user_id` out of
every document of `users_collection.find({})` — there is no filter of any
kind, in particular none on `banned`. -/
def get_all_user_ids (users : List TgUser) : List ℤ :=
  users.map (fun u => u.user_id)

theorem broadcast_foldl_acc (send : ℤ → Bool) (adminId : Option ℤ) (skipAdmin : Bool)
    (users : List TgUser) (n : ℕ) :
    users.foldl (broadcastStep send adminId skipAdmin) n
      = n + ((broadcast_attempts adminId skipAdmin users).filter send).length := by
  induction users generalizing n with
  | nil => simp [broadcast_attempts]
  | cons u rest ih =>
      rw [List.foldl_cons, broadcastStep_eq_attemptOf]
      unfold broadcast_attempts
      rw [List.filterMap_cons]
      rcases hat : attemptOf adminId skipAdmin u with _ | cid
      · exact ih n
      · dsimp only
        by_cases hsend : send cid = true
        · rw [if_pos hsend, ih (n + 1), List.filter_cons]
          simp only [hsend, if_true, List.length_cons]
          unfold broadcast_attempts
          omega
        · rw [if_neg hsend, ih n, List.filter_cons]
          simp only [hsend, Bool.false_eq_true, if_false]
          unfold broadcast_attempts
          rfl

theorem broadcast_eq_filter_attempts (send : ℤ → Bool) (adminId : Option ℤ)
    (skipAdmin : Bool) (users : List TgUser) :
    broadcast_to_all_users send adminId skipAdmin users
      = ((broadcast_attempts adminId skipAdmin users).filter send).length := by
  unfold broadcast_to_all_users
  rw [broadcast_foldl_acc]
  omega

theorem length_filter_add_length_filter_not {α : Type} (p : α → Bool) (l : List α) :
    (l.filter p).length + (l.filter (fun x => !p x)).length = l.length := by
  induction l with
  | nil => rfl
  | cons x xs ih =>
      by_cases h : p x = true <;> simp [List.filter_cons, h, ← ih] <;> omega

theorem attempts_length_of_all_chat_ids (adminId : Option ℤ) (users : List TgUser)
    (hch : ∀ u ∈ users, u.chat_id ≠ none ∧ u.chat_id ≠ some 0) :
    (broadcast_attempts adminId false users).length = users.length := by
  induction users with
  | nil => rfl
  | cons u rest ih =>
      obtain ⟨h1, h2⟩ := hch u (List.mem_cons_self u rest)
      rcases hc : u.chat_id with _ | cid
      · exact absurd hc h1
      · have hcid : ¬ cid = 0 := fun h => h2 (by rw [hc, h])
        have hat : attemptOf adminId false u = some cid := by
          unfold attemptOf
          rw [hc]
          simp [hcid]
        unfold broadcast_attempts
        rw [List.filterMap_cons, hat]
        simp only [List.length_cons]
        unfold broadcast_attempts at ih
        rw [ih fun v hv => hch v (List.mem_cons_of_mem u hv)]

/-- C6. Delivery isolation: for a recipient list in which every document has
a usable chat id, if exactly the send of one recipient fails, the broadcast still
attempts every recipient (the attempt list has length N), completes without
raising (the model is a total function, mirroring the per-send
`try`/`except`), and returns a sent count of N − 1 — the failed count,
observable as the failing entries of the attempt list, is exactly the
hypothesised 1.  The return value of the function is the sent count alone; the
failure count is only logged. -/
theorem broadcast_delivery_isolation (users : List TgUser) (send : ℤ → Bool)
    (adminId : Option ℤ)
    (hch : ∀ u ∈ users, u.chat_id ≠ none ∧ u.chat_id ≠ some 0)
    (hfail : ((broadcast_attempts adminId false users).filter (fun c => !send c)).length = 1) :
    broadcast_to_all_users send adminId false users = users.length - 1
      ∧ (broadcast_attempts adminId false users).length = users.length := by
  have hlen := attempts_length_of_all_chat_ids adminId users hch
  have hpart := length_filter_add_length_filter_not send (broadcast_attempts adminId false users)
  rw [broadcast_eq_filter_attempts]
  omega

/-- C6 witness: three recipients with chat ids 1, 2, 3 where the send to chat
2 fails: the broadcast returns 2 = 3 − 1 and attempted all 3. -/
theorem broadcast_delivery_isolation_witness :
    ((∀ u ∈ [(⟨some 1, 1, false⟩ : TgUser), ⟨some 2, 2, false⟩, ⟨some 3, 3, false⟩],
        u.chat_id ≠ none ∧ u.chat_id ≠ some 0)
      ∧ ((broadcast_attempts none false
            [(⟨some 1, 1, false⟩ : TgUser), ⟨some 2, 2, false⟩, ⟨some 3, 3, false⟩]).filter
          (fun c => !(c != 2))).length = 1)
    ∧ (broadcast_to_all_users (fun c => c != 2) none false
          [(⟨some 1, 1, false⟩ : TgUser), ⟨some 2, 2, false⟩, ⟨some 3, 3, false⟩]
        = 3 - 1
      ∧ (broadcast_attempts none false
          [(⟨some 1, 1, false⟩ : TgUser), ⟨some 2, 2, false⟩, ⟨some 3, 3, false⟩]).length
        = 3) :=
  ⟨⟨by decide, by decide⟩,
    broadcast_delivery_isolation
      [⟨some 1, 1, false⟩, ⟨some 2, 2, false⟩, ⟨some 3, 3, false⟩]
      (fun c => c != 2) none (by decide) (by decide)⟩

/-- C7 (counterexample to the claim as stated). A stored user with
`banned = true` and chat id 7: `get_all_user_ids` still enumerates them and
`broadcast_to_all_users` still attempts and delivers to them — the banned
flag is never consulted by either function. -/
theorem banned_user_receives_broadcast_cex :
    ((⟨some 7, 7, true⟩ : TgUser).banned = true)
    ∧ get_all_user_ids [⟨some 7, 7, true⟩] = [7]
    ∧ broadcast_attempts none false [⟨some 7, 7, true⟩] = [7]
    ∧ broadcast_to_all_users (fun _ => true) none false [⟨some 7, 7, true⟩] = 1 := by
  decide

/-- C7 (amended). The recipient enumeration does NOT exclude banned
recipients: every stored user is enumerated by `get_all_user_ids`, and every
stored user with a usable chat id — banned or not — is attempted by the
broadcast fan-out. -/
theorem banned_users_not_excluded (users : List TgUser) (u : TgUser)
    (adminId : Option ℤ) (c : ℤ)
    (hmem : u ∈ users) (hban : u.banned = true)
    (hc : u.chat_id = some c) (hc0 : c ≠ 0) :
    u.user_id ∈ get_all_user_ids users
      ∧ c ∈ broadcast_attempts adminId false users := by
  constructor
  · exact List.mem_map_of_mem (fun v => v.user_id) hmem
  · unfold broadcast_attempts
    refine List.mem_filterMap.mpr ⟨u, hmem, ?_⟩
    unfold attemptOf
    rw [hc]
    simp [hc0]

/-- C7 witness for the amended theorem: the banned user with chat id 7 is in
both the id enumeration and the attempt list. -/
theorem banned_users_not_excluded_witness :
    (((⟨some 7, 7, true⟩ : TgUser) ∈ [(⟨some 7, 7, true⟩ : TgUser)])
      ∧ (⟨some 7, 7, true⟩ : TgUser).banned = true
      ∧ (⟨some 7, 7, true⟩ : TgUser).chat_id = some 7 ∧ (7 : ℤ) ≠ 0)
    ∧ ((⟨some 7, 7, true⟩ : TgUser).user_id ∈ get_all_user_ids [⟨some 7, 7, true⟩]
      ∧ (7 : ℤ) ∈ broadcast_attempts none false [⟨some 7, 7, true⟩]) :=
  ⟨⟨by decide, by decide, by decide, by decide⟩,
    banned_users_not_excluded [⟨some 7, 7, true⟩] ⟨some 7, 7, true⟩ none 7
      (by decide) (by decide) (by decide) (by decide)⟩

/-! ## utils/scrapers/zealy.py — run_scrape_once -/

/-- A community/candidate record produced by the source fetcher, reduced to
the fields the dedup logic uses. -/
structure Candidate where
  title : String
  url : String
  deriving DecidableEq

/-- The persistence state the scrape cycle reads and writes: the links of the
stored airdrop documents (`airdrops_col`) and the links of the send-log
entries whose `sent_at` lies within the 24h cool-down window
(`sent_log_col`). -/
structure PipelineState where
  airdrops : List String
  sentLog : List String
  deriving DecidableEq

/-- Outcomes of the fallible operations for one candidate of one scrape
cycle. -/
structure CandidateEnv where
  /-- the `airdrops_col.find_one` query of `is_duplicate` succeeds / raises -/
  dupRead : Except Unit Unit
  /-- the `sent_log_col.find_one` query of `was_sent_recently` succeeds / raises -/
  recentRead : Except Unit Unit
  /-- result of `run_scam_checks` (`.attrError` also stands for any other
  exception raised during per-candidate processing before the save; the
  per-candidate `try`/`except` then logs and continues with the next
  candidate) -/
  scamCheck : RunScamOutcome
  /-- the `airdrops_col.insert_one` of `save_airdrop_record` succeeds
  (`save_airdrop_record` swallows its own exceptions) -/
  saveOk : Bool
  /-- the `sent_log_col.insert_one` of `log_sent` succeeds (`log_sent`
  swallows its own exceptions) -/
  logOk : Bool
  deriving DecidableEq

/-- A `find_one({"link": link})` query against a set of stored links: raises
iff the underlying read raises, otherwise reports whether a document with
that link exists. -/
def dbFind (links : List String) (link : String) (read : Except Unit Unit) :
    Except Unit (Option Unit) :=
  match read with
  | .error e => .error e
  | .ok _ => .ok (if link ∈ links then some () else none)

/-- One iteration of the `for c in communities:` loop of `run_scrape_once`:
skip when `is_duplicate or was_sent_recently`; run the scam checks (an
escaping exception abandons the candidate); `save_airdrop_record` (before any
verdict test!); skip the broadcast when the verdict is `"scam"`; otherwise
`broadcast_to_all_users` (one dispatch, counted) followed by `log_sent`.
Returns the new persistence state and the number of notification dispatches
(0 or 1). -/
def process_candidate (env : CandidateEnv) (st : PipelineState) (c : Candidate) :
    PipelineState × ℕ :=
  if is_duplicate (dbFind st.airdrops c.url env.dupRead)
      || was_sent_recently (dbFind st.sentLog c.url env.recentRead) then (st, 0)
  else
    match env.scamCheck with
    | .attrError => (st, 0)
    | .ok _ verdict =>
        let st1 := if env.saveOk then
          { st with airdrops := st.airdrops ++ [c.url] } else st
        if verdict = "scam" then (st1, 0)
        else
          let st2 := if env.logOk then
            { st1 with sentLog := st1.sentLog ++ [c.url] } else st1
          (st2, 1)

/-- Model of `run_scrape_once`: process the fetched candidates in order, threading the
persistence state; the environment list supplies one `CandidateEnv` per
candidate.  Returns the final state and the total number of broadcast
dispatches. -/
def run_scrape_once : List CandidateEnv → PipelineState → List Candidate →
    PipelineState × ℕ
  | _, st, [] => (st, 0)
  | [], st, _ :: _ => (st, 0)
  | e :: es, st, c :: cs =>
      let r := process_candidate e st c
      let rest := run_scrape_once es r.1 cs
      (rest.1, r.2 + rest.2)

theorem is_duplicate_dbFind_of_mem (links : List String) (l : String)
    (read : Except Unit Unit) (h : l ∈ links) :
    is_duplicate (dbFind links l read) = true := by
  cases read with
  | error e => rfl
  | ok _ => simp [dbFind, is_duplicate, h]

theorem process_candidate_of_stored (env : CandidateEnv) (st : PipelineState)
    (c : Candidate) (h : c.url ∈ st.airdrops) :
    process_candidate env st c = (st, 0) := by
  unfold process_candidate
  rw [is_duplicate_dbFind_of_mem st.airdrops c.url env.dupRead h]
  simp

theorem run_scrape_once_single (e : CandidateEnv) (st : PipelineState) (c : Candidate) :
    run_scrape_once [e] st [c] = process_candidate e st c := rfl

theorem process_candidate_fresh (env : CandidateEnv) (st : PipelineState)
    (c : Candidate) (ss : Option ℤ) (vv : String)
    (hd : env.dupRead = .ok ()) (hr : env.recentRead = .ok ())
    (hs : env.scamCheck = .ok ss vv) (hsave : env.saveOk = true)
    (hm1 : c.url ∉ st.airdrops) (hm2 : c.url ∉ st.sentLog) :
    process_candidate env st c
      = if vv = "scam" then (⟨st.airdrops ++ [c.url], st.sentLog⟩, 0)
        else (⟨st.airdrops ++ [c.url],
          if env.logOk then st.sentLog ++ [c.url] else st.sentLog⟩, 1) := by
  unfold process_candidate
  rw [hd, hr, hs, hsave]
  simp only [dbFind, is_duplicate, was_sent_recently, hm1, hm2, if_neg,
    Option.isSome_none, Bool.or_self, Bool.false_eq_true, if_false, if_true]
  by_cases hv : vv = "scam"
  · simp [hv]
  · by_cases hl : env.logOk = true <;> simp [hv, hl]

/-- C1. Idempotent dedup: start from a state with no stored candidate and no
recent send record for the link; if, on the first run, the guard queries
succeed, the scam checks do not raise and the candidate insert succeeds, then
after running the scrape cycle twice on the same fetched candidate there is
exactly one stored candidate document for the link and at most one send
record within the cool-down window — and the second run (whatever its guard
outcomes: even if its queries raise, the guard fails closed) changes nothing
and dispatches no notification. -/
theorem scrape_twice_single_candidate (c : Candidate) (st0 : PipelineState)
    (e1 e2 : CandidateEnv)
    (h1 : st0.airdrops.count c.url = 0)
    (h2 : st0.sentLog.count c.url = 0)
    (hdup : e1.dupRead = .ok ())
    (hrec : e1.recentRead = .ok ())
    (hscam : e1.scamCheck ≠ .attrError)
    (hsave : e1.saveOk = true) :
    ((run_scrape_once [e1] st0 [c]).1.airdrops.count c.url = 1
      ∧ (run_scrape_once [e1] st0 [c]).1.sentLog.count c.url ≤ 1)
    ∧ run_scrape_once [e2] (run_scrape_once [e1] st0 [c]).1 [c]
        = ((run_scrape_once [e1] st0 [c]).1, 0) := by
  obtain ⟨ss, vv, hsc⟩ : ∃ s v, e1.scamCheck = .ok s v := by
    cases hx : e1.scamCheck with
    | ok s v => exact ⟨s, v, rfl⟩
    | attrError => exact absurd hx hscam
  have hmem0 : c.url ∉ st0.airdrops := List.count_eq_zero.mp h1
  have hmem0s : c.url ∉ st0.sentLog := List.count_eq_zero.mp h2
  rw [run_scrape_once_single,
    process_candidate_fresh e1 st0 c ss vv hdup hrec hsc hsave hmem0 hmem0s]
  have hcnt : (st0.airdrops ++ [c.url]).count c.url = 1 := by
    rw [List.count_append, h1]
    simp
  have hcnts : ∀ log : List String, log.count c.url = 0 →
      ((if e1.logOk then log ++ [c.url] else log).count c.url ≤ 1) := by
    intro log hlog
    by_cases hl : e1.logOk = true
    · rw [if_pos hl, List.count_append, hlog]
      simp
    · rw [if_neg hl, hlog]
      omega
  by_cases hv : vv = "scam"
  · rw [if_pos hv]
    refine ⟨⟨hcnt, by rw [h2]; omega⟩, ?_⟩
    rw [run_scrape_once_single]
    exact process_candidate_of_stored e2 _ c (by simp)
  · rw [if_neg hv]
    refine ⟨⟨hcnt, hcnts st0.sentLog h2⟩, ?_⟩
    rw [run_scrape_once_single]
    exact process_candidate_of_stored e2 _ c (by simp)

/-- The candidate of the concrete scenario. -/
def fooCandidate : Candidate := ⟨"Foo", "https://zealy.io/c/foo"⟩

/-- An empty persistence state. -/
def emptyState : PipelineState := ⟨[], []⟩

/-- A first-run environment in which every persistence operation succeeds and
the scam checks return a clean summary. -/
def healthyEnv : CandidateEnv := ⟨.ok (), .ok (), .ok none "clean", true, true⟩

/-- A second-run environment in which both guard queries raise. -/
def failingEnv : CandidateEnv := ⟨.error (), .error (), .attrError, false, false⟩

/-- C1 witness: a single fresh candidate, healthy first-run environment, and
a second-run environment whose guard queries both raise: the pipeline stores
the candidate once, logs at most one send record, and the second run is a
no-op dispatching nothing. -/
theorem scrape_twice_single_candidate_witness :
    (emptyState.airdrops.count fooCandidate.url = 0
      ∧ emptyState.sentLog.count fooCandidate.url = 0
      ∧ healthyEnv.dupRead = .ok ()
      ∧ healthyEnv.recentRead = .ok ()
      ∧ healthyEnv.scamCheck ≠ RunScamOutcome.attrError
      ∧ healthyEnv.saveOk = true)
    ∧ (((run_scrape_once [healthyEnv] emptyState [fooCandidate]).1.airdrops.count
            fooCandidate.url = 1
        ∧ (run_scrape_once [healthyEnv] emptyState [fooCandidate]).1.sentLog.count
            fooCandidate.url ≤ 1)
      ∧ run_scrape_once [failingEnv]
            (run_scrape_once [healthyEnv] emptyState [fooCandidate]).1 [fooCandidate]
          = ((run_scrape_once [healthyEnv] emptyState [fooCandidate]).1, 0)) :=
  ⟨⟨by decide, by decide, by decide, by decide, by decide, by decide⟩,
    scrape_twice_single_candidate fooCandidate emptyState healthyEnv failingEnv
      (by decide) (by decide) (by decide) (by decide) (by decide) (by decide)⟩

/-! ## utils/scheduler.py — process_unposted_airdrops

One iteration of the `for _ in range(max_items):` loop, after an unposted
airdrop document has been dequeued.  The iteration calls the imported
`utils.scam_analyzer.analyze_airdrop` (which returns a plain **int**) through
an executor; on a raise the `except` substitutes the dict
`{"score": None, "verdict": "unknown"}`.  The skip test then reads

```
scam_score = scam_summary.get("score") if isinstance(scam_summary, dict) else None
if scam_score is not None and ... and scam_score >= 30: ... mark posted ... continue
```

so an integer result — the only thing the imported analyzer ever returns —
always yields `scam_score = None`. -/

/-- The Python value bound to `scam_summary`: an int returned by
`analyze_airdrop`, or the fallback dict built in the `except` branch. -/
inductive PyScamSummary
  | int (n : ℤ)
  | dict (score : Option ℤ) (verdict : String)
  deriving DecidableEq

/-- Outcomes of the fallible operations of one loop iteration. -/
structure ProcessEnv where
  /-- the executor call to `analyze_airdrop(title, description, link)`:
  returned the int `n`, or raised -/
  analyze : Except Unit ℤ
  /-- the `send_airdrop_to_all` call completes without raising -/
  sendOk : Bool
  /-- the `mark_airdrop_posted` database write succeeds -/
  markOk : Bool
  /-- an exception raised elsewhere in the iteration body, caught by the
  outer `except`, which still marks the record posted -/
  bodyRaise : Bool
  deriving DecidableEq

/-- Observable outcome of one loop iteration: whether the dequeued document
ends up marked `posted`, how many broadcast dispatches to the recipients were
made, and the contribution of the iteration to the returned `sent_count`. -/
structure IterResult where
  posted : Bool
  dispatches : ℕ
  sentCount : ℕ
  deriving DecidableEq

/-- One iteration of `process_unposted_airdrops` from `utils/scheduler.py`
(after a document was dequeued): build `scam_summary`, take the scam-skip
branch only when `scam_summary` is a dict carrying a numeric score ≥ 30
(marking posted and dispatching nothing), otherwise dispatch via
`send_airdrop_to_all` (a raise there is caught and logged) and mark the
document posted; the outer `except` path also marks it posted. -/
def process_one_airdrop (env : ProcessEnv) : IterResult :=
  if env.bodyRaise then ⟨env.markOk, 0, 0⟩
  else
    let scam_summary : PyScamSummary :=
      match env.analyze with
      | .ok n => .int n
      | .error _ => .dict none "unknown"
    let scam_score : Option ℤ :=
      match scam_summary with
      | .dict s _ => s
      | .int _ => none
    match scam_score with
    | some v =>
        if 30 ≤ v then ⟨env.markOk, 0, 0⟩
        else if env.sendOk then ⟨env.markOk, 1, 1⟩ else ⟨env.markOk, 0, 0⟩
    | none =>
        if env.sendOk then ⟨env.markOk, 1, 1⟩ else ⟨env.markOk, 0, 0⟩

/-- C9 (amended). Every dequeued airdrop is marked posted by the end of its
loop iteration — sent, skipped, send-failed or raising — exactly when the
mark-posted write itself succeeds, so no dequeued airdrop is dispatched
twice.  (The claimed silent consumption of scam-scored airdrops does not
hold; see the counterexample.) -/
theorem process_unposted_always_marks_posted (env : ProcessEnv) :
    (process_one_airdrop env).posted = env.markOk := by
  rcases env with ⟨a, sendOk, markOk, bodyRaise⟩
  rcases bodyRaise <;> rcases a with u | n <;> rcases sendOk <;> rfl

/-- C9 (counterexample to the claim as stated). A dequeued airdrop for which
`analyze_airdrop` returns its high-risk score 99 (≥ 30) and sending works:
because `isinstance(scam_summary, dict)` is false for an int, the skip branch
does not fire and the airdrop IS dispatched to the recipients (1 dispatch,
counted in `sent_count`) — it is not silently consumed without a message. -/
theorem scam_scored_airdrop_dispatched_cex :
    process_one_airdrop ⟨.ok 99, true, true, false⟩
      = ⟨true, 1, 1⟩ ∧ (99 : ℤ) ≥ 30 := by
  decide

end ZkDrop
